import Mathlib

/-!
Shallow embedding of the pty-exec crate (a PTY lifecycle primitive).

The source lives in src/lib.rs, src/pty.rs, src/error.rs, src/unix/pty.rs,
src/unix/shell.rs and src/unix/window.rs.  OS interaction (libc calls, the
descriptor poll loop, the passwd database, environment variables) is modelled
by passing the results the OS would return as explicit arguments: each libc
call site in the Rust code corresponds to one field of an oracle structure or
one element of an input list, and the control flow of the Lean definitions
mirrors the Rust control flow line by line.
-/

namespace PtyExec

/-! Libc constants (Linux values), as used by src/unix/pty.rs. -/

def POLLIN : Nat := 1

def POLLERR : Nat := 8

def POLLHUP : Nat := 16

def POLLNVAL : Nat := 32

/-- ERR_BITS from poll: POLLERR | POLLHUP | POLLNVAL. -/
def ERR_BITS : Nat := POLLERR ||| POLLHUP ||| POLLNVAL

def EINTR : Int := 4

def EBADF : Int := 9

def EBADFD : Int := 77

/-- Size of the stack read buffer in read: 0x1000 bytes. -/
def CHUNK_SIZE : Nat := 4096

/-! Signal numbers (Linux values) used by the pre_exec closure. -/

def SIGHUP : Nat := 1

def SIGINT : Nat := 2

def SIGQUIT : Nat := 3

def SIGALRM : Nat := 14

def SIGTERM : Nat := 15

def SIGCHLD : Nat := 17

instance : DecidableEq (Except String String) := fun a b =>
  match a, b with
  | Except.ok x, Except.ok y =>
    if h : x = y then isTrue (by rw [h]) else isFalse (fun hc => h (Except.ok.inj hc))
  | Except.error x, Except.error y =>
    if h : x = y then isTrue (by rw [h]) else isFalse (fun hc => h (Except.error.inj hc))
  | Except.ok _, Except.error _ => isFalse (fun hc => Except.noConfusion hc)
  | Except.error _, Except.ok _ => isFalse (fun hc => Except.noConfusion hc)

/-- Outcome of an operation, as observed by the process: a returned value, a
returned error value, or a process abort caused by a failed assertion. -/
inductive Outcome (α : Type) where
  | ok (a : α)
  | err (e : String)
  | fatal (msg : String)
deriving DecidableEq

def Outcome.map {α β : Type} (f : α → β) : Outcome α → Outcome β
  | Outcome.ok a => Outcome.ok (f a)
  | Outcome.err e => Outcome.err e
  | Outcome.fatal m => Outcome.fatal m

namespace unix

/-! UTF-8 lossy decoding, modelling String::from_utf8_lossy: invalid
sequences are replaced by U+FFFD following the maximal-subpart rule, and
decoding is a total function (it can never fail). -/

def REPLACEMENT : Char := Char.ofNat 0xFFFD

def isCont (b : Nat) : Bool := decide (0x80 ≤ b ∧ b ≤ 0xBF)

def cont1Ok3 (b0 b1 : Nat) : Bool :=
  if b0 = 0xE0 then decide (0xA0 ≤ b1 ∧ b1 ≤ 0xBF)
  else if b0 = 0xED then decide (0x80 ≤ b1 ∧ b1 ≤ 0x9F)
  else isCont b1

def cont1Ok4 (b0 b1 : Nat) : Bool :=
  if b0 = 0xF0 then decide (0x90 ≤ b1 ∧ b1 ≤ 0xBF)
  else if b0 = 0xF4 then decide (0x80 ≤ b1 ∧ b1 ≤ 0x8F)
  else isCont b1

def utf8LossyAux : Nat → List Nat → List Char
  | 0, _ => []
  | _, [] => []
  | fuel + 1, b0 :: rest =>
    if b0 < 0x80 then
      Char.ofNat b0 :: utf8LossyAux fuel rest
    else if 0xC2 ≤ b0 ∧ b0 ≤ 0xDF then
      match rest with
      | [] => [REPLACEMENT]
      | b1 :: rest1 =>
        if isCont b1 then
          Char.ofNat ((b0 - 0xC0) * 64 + (b1 - 0x80)) :: utf8LossyAux fuel rest1
        else
          REPLACEMENT :: utf8LossyAux fuel rest
    else if 0xE0 ≤ b0 ∧ b0 ≤ 0xEF then
      match rest with
      | [] => [REPLACEMENT]
      | b1 :: rest1 =>
        if cont1Ok3 b0 b1 then
          match rest1 with
          | [] => [REPLACEMENT]
          | b2 :: rest2 =>
            if isCont b2 then
              Char.ofNat ((b0 - 0xE0) * 4096 + (b1 - 0x80) * 64 + (b2 - 0x80)) ::
                utf8LossyAux fuel rest2
            else
              REPLACEMENT :: utf8LossyAux fuel rest1
        else
          REPLACEMENT :: utf8LossyAux fuel rest
    else if 0xF0 ≤ b0 ∧ b0 ≤ 0xF4 then
      match rest with
      | [] => [REPLACEMENT]
      | b1 :: rest1 =>
        if cont1Ok4 b0 b1 then
          match rest1 with
          | [] => [REPLACEMENT]
          | b2 :: rest2 =>
            if isCont b2 then
              match rest2 with
              | [] => [REPLACEMENT]
              | b3 :: rest3 =>
                if isCont b3 then
                  Char.ofNat ((b0 - 0xF0) * 262144 + (b1 - 0x80) * 4096 +
                      (b2 - 0x80) * 64 + (b3 - 0x80)) :: utf8LossyAux fuel rest3
                else
                  REPLACEMENT :: utf8LossyAux fuel rest2
            else
              REPLACEMENT :: utf8LossyAux fuel rest1
        else
          REPLACEMENT :: utf8LossyAux fuel rest
    else
      REPLACEMENT :: utf8LossyAux fuel rest

def utf8Lossy (bs : List Nat) : String := String.mk (utf8LossyAux bs.length bs)

/-- Model of fn read (src/unix/pty.rs lines 134-141).  The oracle argument is
the outcome of the single unistd::read call into the 4096-byte stack buffer:
ok with the bytes the OS wrote (the take reflects the buffer size bound on
the returned count), or error with the OS error text. -/
def read (osRead : Except String (List Nat)) : Except String String :=
  match osRead with
  | Except.ok bytes => Except.ok (utf8Lossy (bytes.take CHUNK_SIZE))
  | Except.error e => Except.error ("Read failure " ++ e)

/-! The poll loop (src/unix/pty.rs lines 106-129).  Each iteration of the
while loop consumes one PollStep describing what the OS reported for that
wake: the result of nix::poll::ppoll, the errno value that would be observed,
the revents bits of the polled descriptor, and what a read call would return
if the loop performs one. -/

inductive PpollResult where
  | fail
  | ok (n : Int) (errnoVal : Int) (revents : Option Nat)

structure PollStep where
  ppoll : PpollResult
  osRead : Except String (List Nat)

inductive Event where
  | onRead (fd : Int) (res : Except String String)
  | onDeath (fd : Int)
  | closed (fd : Int)
deriving DecidableEq

/-- What one iteration of the while loop does with one wake, following the
body of the loop literally: ppoll Err exits the while; n ≤ 0 continues on
EINTR and exits otherwise; absent revents continues; error/hangup/invalid
bits exit; missing POLLIN continues; otherwise one read is delivered. -/
inductive StepKind where
  | exit
  | skip
  | deliver

def stepKind (s : PollStep) : StepKind :=
  match s.ppoll with
  | PpollResult.fail => StepKind.exit
  | PpollResult.ok n errnoVal revents =>
    if n ≤ 0 then
      (if errnoVal = EINTR then StepKind.skip else StepKind.exit)
    else
      match revents with
      | none => StepKind.skip
      | some bits =>
        if bits &&& ERR_BITS ≠ 0 then StepKind.exit
        else if bits &&& POLLIN = 0 then StepKind.skip
        else StepKind.deliver

/-- The observable callback/close trace of the spawned thread for a given
sequence of OS wakes.  An empty remaining input means the thread is still
blocked in ppoll; when an iteration exits the while loop, on_death runs once
and the descriptor is closed, and nothing follows. -/
def runLoop (fd : Int) : List PollStep → List Event
  | [] => []
  | s :: rest =>
    match stepKind s with
    | StepKind.exit => [Event.onDeath fd, Event.closed fd]
    | StepKind.skip => runLoop fd rest
    | StepKind.deliver => Event.onRead fd (read s.osRead) :: runLoop fd rest

def isDeathEv : Event → Bool
  | Event.onDeath _ => true
  | _ => false

def isClosedEv : Event → Bool
  | Event.closed _ => true
  | _ => false

end unix

/-! The pre_exec closure of spawn (src/unix/pty.rs lines 44-73), executed in
the child between fork and exec.  The oracle fields are the return values of
the libc calls the closure makes; the trace records which calls were issued
and in which order.  The source checks only the setsid and ioctl return
values; the close and signal return values are discarded there, which is why
they do not influence the result below. -/

structure ChildOs where
  setsidRet : Int
  ioctlRet : Int
  closeSlaveRet : Int
  closeMasterRet : Int
  signalRet : Int

inductive ChildAction where
  | setsid
  | ioctlSetCtty (fd : Int)
  | closeFd (fd : Int)
  | sigDfl (sig : Nat)
deriving DecidableEq

def preExec (os : ChildOs) (slave master : Int) : List ChildAction × Except String Unit :=
  if os.setsidRet < 0 then
    ([ChildAction.setsid], Except.error "failed to set session id")
  else if os.ioctlRet < 0 then
    ([ChildAction.setsid, ChildAction.ioctlSetCtty slave],
      Except.error "ioctl failure on TIOCSCTTY")
  else
    ([ChildAction.setsid, ChildAction.ioctlSetCtty slave,
      ChildAction.closeFd slave, ChildAction.closeFd master,
      ChildAction.sigDfl SIGCHLD, ChildAction.sigDfl SIGHUP,
      ChildAction.sigDfl SIGINT, ChildAction.sigDfl SIGQUIT,
      ChildAction.sigDfl SIGTERM, ChildAction.sigDfl SIGALRM],
      Except.ok ())

/-- Model of fn validate_fd (src/unix/pty.rs lines 163-171): the arguments
are the return value of fcntl(fd, F_GETFD) and the errno value observed
after it. -/
def validate_fd (fcntlRet errnoVal : Int) (fd : Int) : Except String Unit :=
  if fcntlRet ≠ -1 ∨ errnoVal ≠ EBADFD then
    Except.ok ()
  else
    Except.error ("Invalid file descriptor: " ++ toString fd)

/-- The synchronous part of fn poll (src/unix/pty.rs lines 97-131): validate
the descriptor, and only on success start the background loop; the returned
trace is the loop thread's behavior on the given wakes. -/
def poll_start (fcntlRet errnoVal : Int) (fd : Int) (steps : List unix.PollStep) :
    Except String (List unix.Event) :=
  match validate_fd fcntlRet errnoVal fd with
  | Except.error e => Except.error e
  | Except.ok _ => Except.ok (unix.runLoop fd steps)

/-- Bits accepted by PollFlags::from_bits on Linux; the unwrap in the loop
setup succeeds exactly when the requested bits are inside this mask. -/
def validPollBits : Nat := 0x3FF

def pollFlagsFromBits (bits : Nat) : Option Nat :=
  if bits &&& validPollBits = bits then some bits else none

/-! OS-level calls issued by the control operations. -/

structure Winsize where
  ws_row : Nat
  ws_col : Nat
  ws_xpixel : Nat
  ws_ypixel : Nat
deriving DecidableEq

/-- WindowSize (src/unix/window.rs). -/
structure WindowSize where
  numRows : Nat
  numCols : Nat
  cellWidth : Nat
  cellHeight : Nat
deriving DecidableEq

def WindowSize.to_winsize (w : WindowSize) : Winsize :=
  ⟨w.numRows, w.numCols, w.cellWidth, w.cellHeight⟩

inductive OsCall where
  | oswrite (fd : Int) (buf : List Nat)
  | osclose (fd : Int)
  | osioctlWinsz (fd : Int) (ws : Winsize)
  | oskillProcess (pid : Int)
deriving DecidableEq

/-- UTF-8 bytes of a string; the strings this crate writes are ASCII, for
which the code points are the bytes. -/
def strBytes (s : String) : List Nat := s.data.map Char.toNat

/-! src/unix/shell.rs: ShellUser::from_env.  The passwd oracle holds the
getpwuid_r status, whether the result pointer is null, and the entry fields
(None meaning the C string is not valid UTF-8, in which case the CStr
conversion fails); the env oracle holds the USER/HOME/SHELL variables. -/

structure ShellUser where
  user : String
  home : String
  shell : String
deriving DecidableEq

structure PasswdOs where
  status : Int
  resNull : Bool
  pw_uid : Nat
  pw_name : Option String
  pw_dir : Option String
  pw_shell : Option String

structure EnvVars where
  user : Option String
  home : Option String
  shell : Option String

namespace unix

/-- How one ShellUser field is produced: the environment variable when set,
otherwise the passwd entry field through the fallible CStr conversion. -/
def envOrPw (envVar : Option String) (pwField : Option String) : Except String String :=
  match envVar with
  | some v => Except.ok v
  | none =>
    match pwField with
    | some s => Except.ok s
    | none => Except.error "invalid utf-8 in passwd entry"

/-- Model of ShellUser::from_env (src/unix/shell.rs lines 21-74).  The passwd
database is read unconditionally first; only then are the environment
variables consulted, field by field, falling back to the entry.  The uid
sanity check is an assert_eq, modelled as a fatal outcome. -/
def from_env (uid : Nat) (pw : PasswdOs) (env : EnvVars) : Outcome ShellUser :=
  if pw.status < 0 then Outcome.err "session password UID status error"
  else if pw.resNull then Outcome.err "session password response error"
  else if pw.pw_uid ≠ uid then Outcome.fatal "assertion failed: pw uid mismatch"
  else
    match envOrPw env.user pw.pw_name with
    | Except.error e => Outcome.err e
    | Except.ok u =>
      match envOrPw env.home pw.pw_dir with
      | Except.error e => Outcome.err e
      | Except.ok h =>
        match envOrPw env.shell pw.pw_shell with
        | Except.error e => Outcome.err e
        | Except.ok s => Outcome.ok ⟨u, h, s⟩

/-- Oracle for the parent-side spawn sequence (src/unix/pty.rs lines 18-92):
the openpty result (master, slave), the inputs of the nested from_env call,
the builder.spawn outcome, and the return value of the fcntl F_SETFL call
that sets the master non-blocking.  The termios UTF-8 tuning between openpty
and from_env ignores its results in the source, so it has no oracle field. -/
structure SpawnOs where
  openptyRes : Except String (Int × Int)
  uid : Nat
  pw : PasswdOs
  env : EnvVars
  builderSpawnErr : Option String
  fcntlSetflRet : Int

/-- Model of fn spawn (src/unix/pty.rs lines 18-92).  After a successful
builder.spawn, the source runs assert_eq on the fcntl F_SETFL result, so a
failing fcntl is a fatal outcome, not a returned error. -/
def spawn (os : SpawnOs) : Outcome Int :=
  match os.openptyRes with
  | Except.error e => Outcome.err e
  | Except.ok (master, _slave) =>
    match from_env os.uid os.pw os.env with
    | Outcome.fatal m => Outcome.fatal m
    | Outcome.err e => Outcome.err e
    | Outcome.ok user =>
      match os.builderSpawnErr with
      | some e => Outcome.err ("failed to spawn command " ++ user.shell ++ ": " ++ e)
      | none =>
        if os.fcntlSetflRet = 0 then Outcome.ok master
        else Outcome.fatal "assertion failed: res == 0"

/-- Model of fn write (src/unix/pty.rs lines 143-148): one unistd::write
call whose OS outcome (number of bytes written, or an error) is the oracle
argument; the trace is the list of OS calls issued. -/
def write (os : Except String Nat) (fd : Int) (buf : List Nat) :
    List OsCall × Except String Unit :=
  ([OsCall.oswrite fd buf],
    match os with
    | Except.ok _ => Except.ok ()
    | Except.error e => Except.error ("Write failure " ++ e))

/-- Model of fn resize (src/unix/pty.rs lines 150-157): the oracle argument
is the return value of ioctl(fd, TIOCSWINSZ, ..). -/
def resize (ioctlRet : Int) (fd : Int) (ws : WindowSize) :
    List OsCall × Except String Unit :=
  ([OsCall.osioctlWinsz fd (WindowSize.to_winsize ws)],
    if ioctlRet < 0 then Except.error "Window resize failure" else Except.ok ())

/-- Model of fn kill (src/unix/pty.rs lines 159-161): one write of the exit
command, with the write result discarded. -/
def kill (os : Except String Nat) (fd : Int) : List OsCall × Unit :=
  ((write os fd (strBytes "exit\r")).1, ())

end unix

/-! The public handle (src/lib.rs lines 32-77). -/

structure Pty where
  pid : Int
deriving DecidableEq

/-- Pty::spawn (src/lib.rs lines 40-49): unix spawn, then poll on the master
(whose synchronous part is validate_fd), then wrap the master. -/
def Pty.spawn (os : unix.SpawnOs) (vfRet vfErrno : Int) : Outcome Pty :=
  match unix.spawn os with
  | Outcome.fatal m => Outcome.fatal m
  | Outcome.err e => Outcome.err e
  | Outcome.ok master =>
    match validate_fd vfRet vfErrno master with
    | Except.error e => Outcome.err e
    | Except.ok _ => Outcome.ok ⟨master⟩

def Pty.write (os : Except String Nat) (p : Pty) (s : String) :
    List OsCall × Except String Unit :=
  unix.write os p.pid (strBytes s)

def Pty.resize (ioctlRet : Int) (p : Pty) (ws : WindowSize) :
    List OsCall × Except String Unit :=
  unix.resize ioctlRet p.pid ws

def Pty.kill (os : Except String Nat) (p : Pty) : List OsCall × Unit :=
  unix.kill os p.pid

/-- FromRawFd for Pty (src/lib.rs lines 67-71): the body is only the struct
literal Pty with pid fd. -/
def Pty.from_raw_fd (fd : Int) : Pty := ⟨fd⟩

/-- AsRawFd for Pty (src/lib.rs lines 73-77). -/
def Pty.as_raw_fd (p : Pty) : Int := p.pid

/-! World state tracking which notification loops run and which callback
pair each owns, to express loop/callback creation.  Pty::spawn registers one
loop for the master with the callback pair passed at spawn time (when poll
validation succeeds); Pty::from_raw_fd is only a struct literal, so its
state-passing form leaves the world untouched. -/

structure World where
  loops : List (Int × Nat)
deriving DecidableEq

def pollRegister (fd : Int) (cb : Nat) (w : World) : World := ⟨(fd, cb) :: w.loops⟩

def Pty.spawn_st (master : Int) (cb : Nat) (vfRet vfErrno : Int) (w : World) :
    Except String (Pty × World) :=
  match validate_fd vfRet vfErrno master with
  | Except.error e => Except.error e
  | Except.ok _ => Except.ok (⟨master⟩, pollRegister master cb w)

def Pty.from_raw_fd_st (fd : Int) (w : World) : Pty × World := (Pty.from_raw_fd fd, w)

namespace FilePty

/-! src/pty.rs defines a second Pty type with the same fields and impls as
the one in src/lib.rs (the file is not referenced from lib.rs).  It is
embedded separately from that file, to be compared with the public one. -/

structure Pty where
  pid : Int
deriving DecidableEq

def Pty.spawn (os : unix.SpawnOs) (vfRet vfErrno : Int) : Outcome Pty :=
  match unix.spawn os with
  | Outcome.fatal m => Outcome.fatal m
  | Outcome.err e => Outcome.err e
  | Outcome.ok master =>
    match validate_fd vfRet vfErrno master with
    | Except.error e => Outcome.err e
    | Except.ok _ => Outcome.ok ⟨master⟩

def Pty.write (os : Except String Nat) (p : Pty) (s : String) :
    List OsCall × Except String Unit :=
  unix.write os p.pid (strBytes s)

def Pty.resize (ioctlRet : Int) (p : Pty) (ws : WindowSize) :
    List OsCall × Except String Unit :=
  unix.resize ioctlRet p.pid ws

def Pty.kill (os : Except String Nat) (p : Pty) : List OsCall × Unit :=
  unix.kill os p.pid

def Pty.from_raw_fd (fd : Int) : Pty := ⟨fd⟩

def Pty.as_raw_fd (p : Pty) : Int := p.pid

/-- Identification of the duplicate handle type with the public one. -/
def toLib (p : Pty) : PtyExec.Pty := ⟨p.pid⟩

end FilePty

end PtyExec

namespace PtyExec

/-- Either the loop has exited within the supplied wakes, in which case the
trace is some on_read events followed by exactly on_death then close, or it
has not, in which case only on_read events have happened. -/
theorem runLoop_cases (fd : Int) (steps : List unix.PollStep) :
    (∃ pre, unix.runLoop fd steps = pre ++ [unix.Event.onDeath fd, unix.Event.closed fd] ∧
      ∀ e ∈ pre, ∃ r, e = unix.Event.onRead fd r) ∨
    (∀ e ∈ unix.runLoop fd steps, ∃ r, e = unix.Event.onRead fd r) := by
  induction steps with
  | nil => right; intro e he; simp [unix.runLoop] at he
  | cons s rest ih =>
    cases hk : unix.stepKind s with
    | exit =>
      left
      exact ⟨[], by simp [unix.runLoop, hk], by intro e he; simp at he⟩
    | skip =>
      have hrw : unix.runLoop fd (s :: rest) = unix.runLoop fd rest := by
        simp [unix.runLoop, hk]
      rw [hrw]; exact ih
    | deliver =>
      have hrw : unix.runLoop fd (s :: rest) =
          unix.Event.onRead fd (unix.read s.osRead) :: unix.runLoop fd rest := by
        simp [unix.runLoop, hk]
      rcases ih with ⟨pre, hpre, hall⟩ | hall
      · left
        refine ⟨unix.Event.onRead fd (unix.read s.osRead) :: pre, ?_, ?_⟩
        · rw [hrw, hpre]; rfl
        · intro e he
          rcases List.mem_cons.mp he with h | h
          · exact ⟨unix.read s.osRead, h⟩
          · exact hall e h
      · right
        intro e he
        rw [hrw] at he
        rcases List.mem_cons.mp he with h | h
        · exact ⟨unix.read s.osRead, h⟩
        · exact hall e h

/-- Claim C1: for every started notification loop, when the loop exits (for
any reason) the on_death callback is invoked exactly once with the watched
descriptor, after every on_read invocation of that loop, and the descriptor
is closed immediately after on_death and at no other point in the loop's
lifetime. -/
theorem C1_on_death_once_last_then_close (fd : Int) (steps : List unix.PollStep)
    (hx : unix.Event.onDeath fd ∈ unix.runLoop fd steps) :
    ∃ pre, unix.runLoop fd steps = pre ++ [unix.Event.onDeath fd, unix.Event.closed fd] ∧
      (∀ e ∈ pre, ∃ r, e = unix.Event.onRead fd r) ∧
      (unix.runLoop fd steps).countP unix.isDeathEv = 1 ∧
      (unix.runLoop fd steps).countP unix.isClosedEv = 1 := by
  rcases runLoop_cases fd steps with ⟨pre, heq, hall⟩ | hall
  · have hd : pre.countP unix.isDeathEv = 0 := List.countP_eq_zero.mpr (by
      intro e he
      obtain ⟨r, rfl⟩ := hall e he
      simp [unix.isDeathEv])
    have hc : pre.countP unix.isClosedEv = 0 := List.countP_eq_zero.mpr (by
      intro e he
      obtain ⟨r, rfl⟩ := hall e he
      simp [unix.isClosedEv])
    refine ⟨pre, heq, hall, ?_, ?_⟩
    · rw [heq, List.countP_append, hd]
      simp [List.countP_cons, unix.isDeathEv, unix.isClosedEv]
    · rw [heq, List.countP_append, hc]
      simp [List.countP_cons, unix.isDeathEv, unix.isClosedEv]
  · obtain ⟨r, hr⟩ := hall _ hx
    exact absurd hr (by simp)

/-- Witness for C1 at a concrete input: a single wake on which ppoll fails. -/
theorem C1_witness :
    unix.Event.onDeath 3 ∈
      unix.runLoop 3 [⟨unix.PpollResult.fail, Except.ok []⟩] ∧
    ∃ pre, unix.runLoop 3 [⟨unix.PpollResult.fail, Except.ok []⟩] =
        pre ++ [unix.Event.onDeath 3, unix.Event.closed 3] ∧
      (∀ e ∈ pre, ∃ r, e = unix.Event.onRead 3 r) ∧
      (unix.runLoop 3 [⟨unix.PpollResult.fail, Except.ok []⟩]).countP unix.isDeathEv = 1 ∧
      (unix.runLoop 3 [⟨unix.PpollResult.fail, Except.ok []⟩]).countP unix.isClosedEv = 1 := by
  have hm : unix.Event.onDeath 3 ∈
      unix.runLoop 3 [⟨unix.PpollResult.fail, Except.ok []⟩] := by decide
  exact ⟨hm, C1_on_death_once_last_then_close 3 _ hm⟩

/-- Claim C2: on every wake of the loop, an error/hangup/invalid event exits
the loop; a wake without readability waits again invoking no callback;
otherwise exactly one read of at most 4096 bytes is performed, decoded with
total lossy UTF-8 decoding, and on_read is invoked with the descriptor and
the decoded chunk (or an error value if the read failed), a failed read not
terminating the loop. -/
theorem C2_wake_behavior (fd n errnoVal : Int) (bits : Nat)
    (osRead : Except String (List Nat)) (rest : List unix.PollStep) (hn : 0 < n) :
    (bits &&& ERR_BITS ≠ 0 →
      unix.runLoop fd (⟨unix.PpollResult.ok n errnoVal (some bits), osRead⟩ :: rest) =
        [unix.Event.onDeath fd, unix.Event.closed fd]) ∧
    (bits &&& ERR_BITS = 0 → bits &&& POLLIN = 0 →
      unix.runLoop fd (⟨unix.PpollResult.ok n errnoVal (some bits), osRead⟩ :: rest) =
        unix.runLoop fd rest) ∧
    (bits &&& ERR_BITS = 0 → bits &&& POLLIN ≠ 0 →
      unix.runLoop fd (⟨unix.PpollResult.ok n errnoVal (some bits), osRead⟩ :: rest) =
        unix.Event.onRead fd (unix.read osRead) :: unix.runLoop fd rest) ∧
    (∀ bytes, unix.read (Except.ok bytes) =
      Except.ok (unix.utf8Lossy (bytes.take CHUNK_SIZE))) ∧
    (∀ e, unix.read (Except.error e) = Except.error ("Read failure " ++ e)) := by
  refine ⟨?_, ?_, ?_, fun bytes => rfl, fun e => rfl⟩
  · intro hb
    simp [unix.runLoop, unix.stepKind, not_le.mpr hn, hb]
  · intro hb hp
    simp [unix.runLoop, unix.stepKind, not_le.mpr hn, hb, hp]
  · intro hb hp
    simp [unix.runLoop, unix.stepKind, not_le.mpr hn, hb, hp]

/-- Witness for C2 at a concrete input: one readable wake delivering the
bytes of the text hi, then a hangup wake. -/
theorem C2_witness :
    unix.runLoop 3
        [⟨unix.PpollResult.ok 1 0 (some 1), Except.ok [104, 105]⟩,
         ⟨unix.PpollResult.ok 1 0 (some 16), Except.ok []⟩] =
      [unix.Event.onRead 3 (Except.ok "hi"), unix.Event.onDeath 3, unix.Event.closed 3] := by
  have h := C2_wake_behavior 3 1 0 1 (Except.ok [104, 105])
    [⟨unix.PpollResult.ok 1 0 (some 16), Except.ok []⟩] (by decide)
  exact (h.2.2.1 (by decide) (by decide)).trans (by decide)

/-- Counterexample to C3 as stated: with both close calls (and the signal
calls) failing, the pre-exec sequence neither stops nor reports an error; it
still issues every later step and returns ok, so the close and signal-reset
steps do not short-circuit the sequence with an error on failure. -/
theorem C3_counterexample :
    (preExec ⟨0, 0, -1, -1, -1⟩ 5 4).2 = Except.ok () ∧
    (preExec ⟨0, 0, -1, -1, -1⟩ 5 4).1 =
      [ChildAction.setsid, ChildAction.ioctlSetCtty 5,
       ChildAction.closeFd 5, ChildAction.closeFd 4,
       ChildAction.sigDfl SIGCHLD, ChildAction.sigDfl SIGHUP,
       ChildAction.sigDfl SIGINT, ChildAction.sigDfl SIGQUIT,
       ChildAction.sigDfl SIGTERM, ChildAction.sigDfl SIGALRM] :=
  ⟨rfl, rfl⟩

/-- Claim C3 (amended): the child pre-exec hook performs, strictly in this
order, (1) session detach via setsid, (2) controlling-terminal assignment
via ioctl, (3) close of slave then master, (4) reset of the six signal
dispositions; a setsid or ioctl failure short-circuits the sequence with an
error, while close and signal-reset results are ignored and never stop it. -/
theorem C3_ordered_preexec (os : ChildOs) (slave master : Int) :
    (os.setsidRet < 0 →
      preExec os slave master =
        ([ChildAction.setsid], Except.error "failed to set session id")) ∧
    (0 ≤ os.setsidRet → os.ioctlRet < 0 →
      preExec os slave master =
        ([ChildAction.setsid, ChildAction.ioctlSetCtty slave],
          Except.error "ioctl failure on TIOCSCTTY")) ∧
    (0 ≤ os.setsidRet → 0 ≤ os.ioctlRet →
      preExec os slave master =
        ([ChildAction.setsid, ChildAction.ioctlSetCtty slave,
          ChildAction.closeFd slave, ChildAction.closeFd master,
          ChildAction.sigDfl SIGCHLD, ChildAction.sigDfl SIGHUP,
          ChildAction.sigDfl SIGINT, ChildAction.sigDfl SIGQUIT,
          ChildAction.sigDfl SIGTERM, ChildAction.sigDfl SIGALRM],
          Except.ok ())) := by
  refine ⟨?_, ?_, ?_⟩
  · intro h
    simp [preExec, h]
  · intro h1 h2
    simp [preExec, not_lt.mpr h1, h2]
  · intro h1 h2
    simp [preExec, not_lt.mpr h1, not_lt.mpr h2]

/-- Witness for the amended C3 at a concrete input with all calls succeeding. -/
theorem C3_witness :
    preExec ⟨0, 0, 0, 0, 0⟩ 5 4 =
      ([ChildAction.setsid, ChildAction.ioctlSetCtty 5,
        ChildAction.closeFd 5, ChildAction.closeFd 4,
        ChildAction.sigDfl SIGCHLD, ChildAction.sigDfl SIGHUP,
        ChildAction.sigDfl SIGINT, ChildAction.sigDfl SIGQUIT,
        ChildAction.sigDfl SIGTERM, ChildAction.sigDfl SIGALRM],
        Except.ok ()) :=
  (C3_ordered_preexec ⟨0, 0, 0, 0, 0⟩ 5 4).2.2 (by decide) (by decide)

/-- Claim C4 evaluation at the failing input: after close, fcntl(F_GETFD)
returns -1 with errno EBADF (9), yet validate_fd accepts the descriptor
because it compares errno against EBADFD (77), so poll starts the loop on a
dead descriptor instead of failing with InvalidDescriptor; a live descriptor
(fcntl not -1) is also accepted. -/
theorem C4_closed_fd_passes_validation :
    validate_fd (-1) EBADF 7 = Except.ok () ∧
    poll_start (-1) EBADF 7 [] = Except.ok [] ∧
    validate_fd 0 0 7 = Except.ok () :=
  ⟨rfl, rfl, rfl⟩

/-- Counterexample to C5 as stated: a spawn in which everything succeeds
except the final fcntl F_SETFL call ends in the assert_eq, aborting the
process instead of returning the error as a value. -/
theorem C5_counterexample :
    unix.spawn ⟨Except.ok (4, 5), 1000,
        ⟨0, false, 1000, some "nm", some "dr", some "sh"⟩,
        ⟨some "u", some "h", some "s"⟩, none, -1⟩ =
      Outcome.fatal "assertion failed: res == 0" :=
  rfl

/-- Claim C5 (amended): every error is returned as a value or delivered to a
callback and no operation aborts the process, except for two assertions:
spawn aborts when the post-spawn fcntl that sets the master non-blocking
fails, and user resolution aborts when the passwd entry uid mismatches the
queried uid; write, resize, kill and read never abort for any input, and the
single unwrap in the loop setup always succeeds on POLLIN. -/
theorem C5_no_abort_except_asserts :
    (∀ os : unix.SpawnOs, os.fcntlSetflRet = 0 → os.pw.pw_uid = os.uid →
      ∀ m, unix.spawn os ≠ Outcome.fatal m) ∧
    (∀ uid pw env, pw.pw_uid = uid → ∀ m, unix.from_env uid pw env ≠ Outcome.fatal m) ∧
    (pollFlagsFromBits POLLIN = some POLLIN) ∧
    (∀ os fd buf, (unix.write os fd buf).2 = Except.ok () ∨
      ∃ e, (unix.write os fd buf).2 = Except.error e) ∧
    (∀ r fd ws, (unix.resize r fd ws).2 = Except.ok () ∨
      ∃ e, (unix.resize r fd ws).2 = Except.error e) ∧
    (∀ os fd, (unix.kill os fd).2 = ()) ∧
    (∀ osr, (∃ s, unix.read osr = Except.ok s) ∨ ∃ e, unix.read osr = Except.error e) := by
  have hfe : ∀ uid pw env, pw.pw_uid = uid →
      ∀ m, unix.from_env uid pw env ≠ Outcome.fatal m := by
    intro uid pw env h m hc
    rcases hu : unix.envOrPw env.user pw.pw_name with eu | u <;>
    rcases hh : unix.envOrPw env.home pw.pw_dir with eh | hm2 <;>
    rcases hs : unix.envOrPw env.shell pw.pw_shell with es | sh <;>
    by_cases h1 : pw.status < 0 <;>
    by_cases h2 : pw.resNull <;>
    simp [unix.from_env, h1, h2, h, hu, hh, hs] at hc
  refine ⟨?_, hfe, rfl, ?_, ?_, fun os fd => rfl, ?_⟩
  · intro os hf hu m hc
    rcases ho : os.openptyRes with e | mp
    · simp [unix.spawn, ho] at hc
    · rcases hev : unix.from_env os.uid os.pw os.env with a | e2 | m2
      · rcases hbe : os.builderSpawnErr with _ | e3 <;>
          simp [unix.spawn, ho, hev, hbe, hf] at hc
      · simp [unix.spawn, ho, hev] at hc
      · exact hfe os.uid os.pw os.env hu m2 hev
  · intro os fd buf
    rcases os with e | n
    · exact Or.inr ⟨"Write failure " ++ e, rfl⟩
    · exact Or.inl rfl
  · intro r fd ws
    by_cases hr : r < 0
    · exact Or.inr ⟨"Window resize failure", by simp [unix.resize, hr]⟩
    · exact Or.inl (by simp [unix.resize, hr])
  · intro osr
    rcases osr with e | bs
    · exact Or.inr ⟨"Read failure " ++ e, rfl⟩
    · exact Or.inl ⟨unix.utf8Lossy (bs.take CHUNK_SIZE), rfl⟩

/-- Witness for the amended C5 at a concrete input: a fully successful spawn
does not abort. -/
theorem C5_witness :
    unix.spawn ⟨Except.ok (4, 5), 1000,
        ⟨0, false, 1000, some "nm", some "dr", some "sh"⟩,
        ⟨some "u", some "h", some "s"⟩, none, 0⟩ ≠
      Outcome.fatal "assertion failed: res == 0" :=
  C5_no_abort_except_asserts.1 _ rfl rfl _

/-- Claim C6: re-wrapping the raw descriptor of a handle yields a handle
with the same raw descriptor; the re-wrap performs no effect (no new loop,
no new callbacks); write, resize and kill through the re-wrapped handle
target exactly the same descriptor; and after a spawn that registered its
callback pair, re-wrapping leaves that registration as the only one. -/
theorem C6_rewrap_same_fd_no_new_loop (h : Pty) (w : World) :
    Pty.from_raw_fd (Pty.as_raw_fd h) = h ∧
    (Pty.from_raw_fd_st (Pty.as_raw_fd h) w).2 = w ∧
    (∀ os s, Pty.write os (Pty.from_raw_fd (Pty.as_raw_fd h)) s = Pty.write os h s) ∧
    (∀ r ws, Pty.resize r (Pty.from_raw_fd (Pty.as_raw_fd h)) ws = Pty.resize r h ws) ∧
    (∀ os, Pty.kill os (Pty.from_raw_fd (Pty.as_raw_fd h)) = Pty.kill os h) ∧
    (∀ master cb vf ve w0 p w1,
      Pty.spawn_st master cb vf ve w0 = Except.ok (p, w1) →
      ((Pty.from_raw_fd_st (Pty.as_raw_fd p) w1).2).loops = (master, cb) :: w0.loops) := by
  refine ⟨rfl, rfl, fun os s => rfl, fun r ws => rfl, fun os => rfl, ?_⟩
  intro master cb vf ve w0 p w1 hsp
  unfold Pty.spawn_st at hsp
  split at hsp
  · exact Except.noConfusion hsp
  · injection hsp with h1
    have hw : pollRegister master cb w0 = w1 := congrArg Prod.snd h1
    rw [Pty.from_raw_fd_st, ← hw]
    rfl

/-- Witness for C6 at concrete inputs: re-wrap of descriptor 7 and a spawn
that registered callback pair 0 on descriptor 9. -/
theorem C6_witness :
    Pty.from_raw_fd (Pty.as_raw_fd (⟨7⟩ : Pty)) = (⟨7⟩ : Pty) ∧
    ((Pty.from_raw_fd_st (Pty.as_raw_fd (⟨9⟩ : Pty)) ⟨[(9, 0)]⟩).2).loops = [(9, 0)] := by
  have h6 := (C6_rewrap_same_fd_no_new_loop (⟨9⟩ : Pty) ⟨[]⟩).2.2.2.2.2
    9 0 0 0 ⟨[]⟩ ⟨9⟩ ⟨[(9, 0)]⟩ rfl
  exact ⟨(C6_rewrap_same_fd_no_new_loop ⟨7⟩ ⟨[]⟩).1, h6⟩

/-- Claim C7: kill issues exactly one OS write of the bytes of exit followed
by a carriage return, returns nothing and swallows any write failure, never
closes the descriptor or signals the child process, and a repeated kill only
repeats that single write. -/
theorem C7_kill_best_effort (os os2 : Except String Nat) (fd : Int) :
    (unix.kill os fd).1 = [OsCall.oswrite fd (strBytes "exit\r")] ∧
    strBytes "exit\r" = [101, 120, 105, 116, 13] ∧
    (unix.kill os fd).2 = () ∧
    (∀ c ∈ (unix.kill os fd).1, c = OsCall.oswrite fd (strBytes "exit\r")) ∧
    (unix.kill os fd).1 ++ (unix.kill os2 fd).1 =
      [OsCall.oswrite fd (strBytes "exit\r"), OsCall.oswrite fd (strBytes "exit\r")] := by
  refine ⟨rfl, by decide, rfl, ?_, rfl⟩
  intro c hcm
  simpa [unix.kill, unix.write] using hcm

/-- Witness for C7 at a concrete input: a kill whose underlying write fails
still returns nothing and issued exactly the one exit write. -/
theorem C7_witness :
    (unix.kill (Except.error "boom") 4).1 = [OsCall.oswrite 4 (strBytes "exit\r")] ∧
    (unix.kill (Except.error "boom") 4).2 = () :=
  ⟨(C7_kill_best_effort (Except.error "boom") (Except.ok 0) 4).1,
   (C7_kill_best_effort (Except.error "boom") (Except.ok 0) 4).2.2.1⟩

/-- Claim C8: write performs exactly one OS write call; it returns Ok
whenever the call succeeds regardless of the byte count written (no
partial-write retry), and returns the write error exactly when the single
call fails. -/
theorem C8_write_single_call (fd : Int) (buf : List Nat) (n : Nat) (e : String) :
    (unix.write (Except.ok n) fd buf).1 = [OsCall.oswrite fd buf] ∧
    (unix.write (Except.error e) fd buf).1 = [OsCall.oswrite fd buf] ∧
    (unix.write (Except.ok n) fd buf).2 = Except.ok () ∧
    (unix.write (Except.error e) fd buf).2 = Except.error ("Write failure " ++ e) :=
  ⟨rfl, rfl, rfl, rfl⟩

/-- Counterexample to C9 as stated: with USER, HOME and SHELL all set but
the unconditional passwd lookup failing (negative getpwuid_r status),
resolution returns an error rather than the three environment values. -/
theorem C9_counterexample :
    unix.from_env 1000 ⟨-1, false, 1000, some "nm", some "dr", some "sh"⟩
        ⟨some "u", some "h", some "s"⟩ =
      Outcome.err "session password UID status error" ∧
    unix.from_env 1000 ⟨-1, false, 1000, some "nm", some "dr", some "sh"⟩
        ⟨some "u", some "h", some "s"⟩ ≠
      Outcome.ok ⟨"u", "h", "s"⟩ :=
  ⟨rfl, by decide⟩

/-- Claim C9 (amended): when the unconditional passwd lookup succeeds
(nonnegative status, non-null result, matching uid), each identity field is
the corresponding environment variable when set, with the passwd entry field
as fallback when unset; in particular with USER, HOME and SHELL all set the
result is exactly those three environment values. -/
theorem C9_env_preferred_passwd_fallback (uid : Nat) (pw : PasswdOs) (env : EnvVars)
    (h1 : 0 ≤ pw.status) (h2 : pw.resNull = false) (h3 : pw.pw_uid = uid) :
    (∀ u hm sh, unix.envOrPw env.user pw.pw_name = Except.ok u →
      unix.envOrPw env.home pw.pw_dir = Except.ok hm →
      unix.envOrPw env.shell pw.pw_shell = Except.ok sh →
      unix.from_env uid pw env = Outcome.ok ⟨u, hm, sh⟩) ∧
    (∀ v pwf, unix.envOrPw (some v) pwf = Except.ok v) ∧
    (∀ s, unix.envOrPw none (some s) = Except.ok s) := by
  refine ⟨?_, fun v pwf => rfl, fun s => rfl⟩
  intro u hm sh hu hh hs
  simp [unix.from_env, not_lt.mpr h1, h2, h3, hu, hh, hs]

/-- Witness for the amended C9 at a concrete input: USER and SHELL set,
HOME unset and taken from the passwd entry. -/
theorem C9_witness :
    unix.from_env 1000 ⟨0, false, 1000, some "nm", some "dr", some "sh"⟩
        ⟨some "u", none, some "s"⟩ =
      Outcome.ok ⟨"u", "dr", "s"⟩ :=
  (C9_env_preferred_passwd_fallback 1000
      ⟨0, false, 1000, some "nm", some "dr", some "sh"⟩
      ⟨some "u", none, some "s"⟩ (by decide) rfl rfl).1
    "u" "dr" "s" rfl rfl rfl

/-- Claim C10: the Pty type of src/pty.rs is an exact functional duplicate of
the public Pty of src/lib.rs: spawn, write, resize, kill, from_raw_fd and
as_raw_fd delegate to the same unix operations with the same arguments and
produce equal results under the identification of the two handle types. -/
theorem C10_file_pty_duplicate :
    (∀ fd, FilePty.toLib (FilePty.Pty.from_raw_fd fd) = Pty.from_raw_fd fd) ∧
    (∀ p, FilePty.Pty.as_raw_fd p = Pty.as_raw_fd (FilePty.toLib p)) ∧
    (∀ os vf ve, Outcome.map FilePty.toLib (FilePty.Pty.spawn os vf ve) =
      Pty.spawn os vf ve) ∧
    (∀ os p s, FilePty.Pty.write os p s = Pty.write os (FilePty.toLib p) s) ∧
    (∀ r p ws, FilePty.Pty.resize r p ws = Pty.resize r (FilePty.toLib p) ws) ∧
    (∀ os p, FilePty.Pty.kill os p = Pty.kill os (FilePty.toLib p)) := by
  refine ⟨fun fd => rfl, fun p => rfl, ?_, fun os p s => rfl,
    fun r p ws => rfl, fun os p => rfl⟩
  intro os vf ve
  rcases hsp : unix.spawn os with a | e | m
  · rcases hv : validate_fd vf ve a with e2 | u <;>
      simp [FilePty.Pty.spawn, Pty.spawn, hsp, hv, Outcome.map, FilePty.toLib]
  · simp [FilePty.Pty.spawn, Pty.spawn, hsp, Outcome.map]
  · simp [FilePty.Pty.spawn, Pty.spawn, hsp, Outcome.map]

end PtyExec
